/-
Verification of the resilience core of the ai-trade-bot repository:
a shallow embedding of `src/error_handler.py` and `src/recovery_manager.py`
(error classification and windowed tracking, circuit breakers, retry with
exponential backoff, the degradation-level / recovery-state machine, and
snapshot persistence), together with theorems settling the specification
claims about that code.

Conventions of the embedding:
- machine time is modelled by integers (the code uses a wall clock only for
  interval arithmetic and display); the one-hour error window is 3600 units;
- Python dicts keyed by a closed enum are modelled as functions into Option;
- Python `datetime` objects are modelled by their seven components, and
  `datetime.isoformat` / `datetime.fromisoformat` by concrete rendering and
  parsing over code-point lists;
- JSON documents written by `json.dump(..., default=str)` are modelled by a
  `JValue` tree; Python values that may additionally contain non-serializable
  `datetime` objects are modelled by `PyValue`, with `default=str`
  stringification made explicit in `dumpV`;
- side effects that the claims observe (alert callbacks, snapshot persists,
  breaker-entry removal) are modelled as explicit components of the returned
  state, mirroring exactly the branch structure of the source.
-/
import Mathlib

/-- The seven components of a Python `datetime` value, as used by
`recovery_manager.py` for snapshot timestamps. -/
structure PyDateTime where
  year : Nat
  month : Nat
  day : Nat
  hour : Nat
  minute : Nat
  second : Nat
  microsecond : Nat
  deriving DecidableEq, Repr

/-- Two-digit zero-padded decimal rendering (code points). -/
def pad2 (n : Nat) : List Nat := [48 + n / 10 % 10, 48 + n % 10]

/-- Four-digit zero-padded decimal rendering (code points). -/
def pad4 (n : Nat) : List Nat :=
  [48 + n / 1000 % 10, 48 + n / 100 % 10, 48 + n / 10 % 10, 48 + n % 10]

/-- Six-digit zero-padded decimal rendering (code points), as three
zero-padded two-digit groups. -/
def pad6 (n : Nat) : List Nat :=
  pad2 (n / 10000) ++ pad2 (n / 100 % 100) ++ pad2 (n % 100)

/-- `datetime.isoformat()`: the ISO-8601 rendering written into the snapshot
file by `_persist_snapshot` (`'timestamp': snapshot.timestamp.isoformat()`).
The fractional part is omitted when `microsecond = 0`, exactly as in Python.
The string is modelled as its list of code points
(45 = hyphen, 84 = capital T, 58 = colon, 46 = dot). -/
def isoformat (d : PyDateTime) : List Nat :=
  pad4 d.year ++ (45 :: (pad2 d.month ++ (45 :: (pad2 d.day ++
    (84 :: (pad2 d.hour ++ (58 :: (pad2 d.minute ++ (58 :: (pad2 d.second ++
    (if d.microsecond = 0 then [] else 46 :: pad6 d.microsecond)))))))))))

/-- `str(datetime)`: like `isoformat` but with a space (code point 32) as the
separator; this is what `json.dump(..., default=str)` writes for a `datetime`
value that is not JSON-serializable. -/
def strOfDateTime (d : PyDateTime) : List Nat :=
  pad4 d.year ++ (45 :: (pad2 d.month ++ (45 :: (pad2 d.day ++
    (32 :: (pad2 d.hour ++ (58 :: (pad2 d.minute ++ (58 :: (pad2 d.second ++
    (if d.microsecond = 0 then [] else 46 :: pad6 d.microsecond)))))))))))

/-- A code point is a decimal digit. -/
def isDigit (c : Nat) : Bool := 48 ≤ c && c ≤ 57

/-- Value of a digit code point. -/
def dval (c : Nat) : Nat := c - 48

/-- The component ranges a Python `datetime` can actually hold (the
day-in-month bound is abstracted to 31). -/
def validRange (d : PyDateTime) : Prop :=
  1 ≤ d.year ∧ d.year ≤ 9999 ∧ 1 ≤ d.month ∧ d.month ≤ 12 ∧
  1 ≤ d.day ∧ d.day ≤ 31 ∧ d.hour ≤ 23 ∧ d.minute ≤ 59 ∧
  d.second ≤ 59 ∧ d.microsecond ≤ 999999

/-- Boolean version of `validRange`, used by the parser. -/
def validRangeB (d : PyDateTime) : Bool :=
  1 ≤ d.year && d.year ≤ 9999 && 1 ≤ d.month && d.month ≤ 12 &&
  1 ≤ d.day && d.day ≤ 31 && d.hour ≤ 23 && d.minute ≤ 59 &&
  d.second ≤ 59 && d.microsecond ≤ 999999

/-- Range validation performed by the `datetime` constructor. -/
def checkRange (d : PyDateTime) : Option PyDateTime :=
  if validRangeB d then some d else none

/-- Read one decimal digit code point. -/
def readDigit (c : Nat) : Option Nat :=
  if 48 ≤ c ∧ c ≤ 57 then some (c - 48) else none

/-- Read an expected separator code point. -/
def readSep (c : Nat) : List Nat → Option (List Nat)
  | x :: rest => if x = c then some rest else none
  | [] => none

/-- Read a two-digit decimal number. -/
def read2 : List Nat → Option (Nat × List Nat)
  | a :: b :: rest =>
    match readDigit a, readDigit b with
    | some x, some y => some (x * 10 + y, rest)
    | _, _ => none
  | _ => none

/-- Read a four-digit decimal number. -/
def read4 : List Nat → Option (Nat × List Nat)
  | a :: b :: c :: d :: rest =>
    match readDigit a, readDigit b, readDigit c, readDigit d with
    | some w, some x, some y, some z =>
      some (w * 1000 + x * 100 + y * 10 + z, rest)
    | _, _, _, _ => none
  | _ => none

/-- Read a six-digit decimal number, as three two-digit groups. -/
def read6 (cs : List Nat) : Option (Nat × List Nat) :=
  (read2 cs).bind fun a =>
  (read2 a.2).bind fun b =>
  (read2 b.2).bind fun c =>
  some (a.1 * 10000 + b.1 * 100 + c.1, c.2)

/-- `datetime.fromisoformat`, as used by `load_latest_snapshot`
(`datetime.fromisoformat(data['timestamp'])`): parses
`YYYY-MM-DDTHH:MM:SS` with an optional `.ffffff` suffix and validates the
component ranges; anything else fails (the surrounding `try` in the source
turns the failure into a `None` result). -/
def fromisoformat (cs : List Nat) : Option PyDateTime :=
  (read4 cs).bind fun y =>
  (readSep 45 y.2).bind fun cs1 =>
  (read2 cs1).bind fun mo =>
  (readSep 45 mo.2).bind fun cs2 =>
  (read2 cs2).bind fun da =>
  (readSep 84 da.2).bind fun cs3 =>
  (read2 cs3).bind fun hh =>
  (readSep 58 hh.2).bind fun cs4 =>
  (read2 cs4).bind fun mi =>
  (readSep 58 mi.2).bind fun cs5 =>
  (read2 cs5).bind fun ss =>
  match ss.2 with
  | [] => checkRange ⟨y.1, mo.1, da.1, hh.1, mi.1, ss.1, 0⟩
  | _ =>
    (readSep 46 ss.2).bind fun cs6 =>
    (read6 cs6).bind fun uu =>
    match uu.2 with
    | [] => checkRange ⟨y.1, mo.1, da.1, hh.1, mi.1, ss.1, uu.1⟩
    | _ => none

/-! JSON documents and Python values, for `_persist_snapshot` /
`load_latest_snapshot`.  `JValue` is what `json.dump` can write and
`json.load` reads back; `PyValue` additionally allows `datetime` objects,
which `json.dump(..., default=str)` stringifies on the way out. -/

mutual

/-- A JSON value as written by `json.dump` and read by `json.load`.
Strings are code-point lists; numbers are modelled exactly (Python floats
round-trip exactly through JSON text). -/
inductive JValue : Type where
  | jnull : JValue
  | jbool : Bool → JValue
  | jnum : Rat → JValue
  | jstr : List Nat → JValue
  | jarr : List JValue → JValue
  | jobj : List JField → JValue

/-- One key/value member of a JSON object. -/
inductive JField : Type where
  | mk : List Nat → JValue → JField

end

mutual

/-- A Python value as it may appear inside a snapshot's `positions`,
`active_orders`, `model_state` or `configuration` field (all typed
`Any` in the source): JSON-shaped data, possibly containing `datetime`
objects that `json.dump` can only serialize via `default=str`. -/
inductive PyValue : Type where
  | pnull : PyValue
  | pbool : Bool → PyValue
  | pnum : Rat → PyValue
  | pstr : List Nat → PyValue
  | pdatetime : PyDateTime → PyValue
  | parr : List PyValue → PyValue
  | pobj : List PyField → PyValue

/-- One key/value member of a Python dict value. -/
inductive PyField : Type where
  | mk : List Nat → PyValue → PyField

end

mutual

/-- `json.dump(..., default=str)` on a Python value: JSON data passes
through unchanged, a `datetime` is replaced by its `str()` rendering. -/
def dumpV : PyValue → JValue
  | .pnull => .jnull
  | .pbool b => .jbool b
  | .pnum q => .jnum q
  | .pstr s => .jstr s
  | .pdatetime d => .jstr (strOfDateTime d)
  | .parr xs => .jarr (dumpL xs)
  | .pobj fs => .jobj (dumpF fs)

/-- `dumpV` on every element of a JSON array. -/
def dumpL : List PyValue → List JValue
  | [] => []
  | x :: xs => dumpV x :: dumpL xs

/-- `dumpV` on every member of a JSON object. -/
def dumpF : List PyField → List JField
  | [] => []
  | .mk k v :: fs => .mk k (dumpV v) :: dumpF fs

end

mutual

/-- `json.load`: the parsed JSON data, viewed again as a Python value
(no `datetime` ever comes back from a JSON file). -/
def loadV : JValue → PyValue
  | .jnull => .pnull
  | .jbool b => .pbool b
  | .jnum q => .pnum q
  | .jstr s => .pstr s
  | .jarr xs => .parr (loadL xs)
  | .jobj fs => .pobj (loadF fs)

/-- `loadV` on every element of a JSON array. -/
def loadL : List JValue → List PyValue
  | [] => []
  | x :: xs => loadV x :: loadL xs

/-- `loadV` on every member of a JSON object. -/
def loadF : List JField → List PyField
  | [] => []
  | .mk k v :: fs => .mk k (loadV v) :: loadF fs

end

mutual

/-- A Python value is natively JSON-representable: it contains no
`datetime` node, so `json.dump` writes it without invoking `default=str`. -/
def jsonableV : PyValue → Bool
  | .pnull => true
  | .pbool _ => true
  | .pnum _ => true
  | .pstr _ => true
  | .pdatetime _ => false
  | .parr xs => jsonableL xs
  | .pobj fs => jsonableF fs

/-- `jsonableV` on every element of an array. -/
def jsonableL : List PyValue → Bool
  | [] => true
  | x :: xs => jsonableV x && jsonableL xs

/-- `jsonableV` on every member of an object. -/
def jsonableF : List PyField → Bool
  | [] => true
  | .mk _ v :: fs => jsonableV v && jsonableF fs

end

/-- The `SystemSnapshot` dataclass of `recovery_manager.py`: a point-in-time
view of positions, balance, open orders, model state and configuration. -/
structure SystemSnapshot where
  timestamp : PyDateTime
  positions : PyValue
  account_balance : Rat
  active_orders : PyValue
  model_state : PyValue
  configuration : PyValue

/-- The JSON document one persisted snapshot file holds (the
`snapshot_data` dict of `_persist_snapshot`, with its six fixed keys). -/
structure SnapshotFile where
  timestamp : List Nat
  positions : JValue
  account_balance : Rat
  active_orders : JValue
  model_state : JValue
  configuration : JValue

/-- `RecoveryManager._persist_snapshot`: builds the `snapshot_data` dict
(`timestamp` rendered with `isoformat`, every other field serialized by
`json.dump(..., default=str)`) and writes it to a timestamp-named file. -/
def persist_snapshot (s : SystemSnapshot) : SnapshotFile :=
  { timestamp := isoformat s.timestamp
    positions := dumpV s.positions
    account_balance := s.account_balance
    active_orders := dumpV s.active_orders
    model_state := dumpV s.model_state
    configuration := dumpV s.configuration }

/-- Reading one snapshot file back into a `SystemSnapshot`
(the tail of `load_latest_snapshot`): the timestamp is parsed with
`datetime.fromisoformat` — whose failure the surrounding `try` turns into
`None` — and the remaining fields are taken from the parsed JSON as is. -/
def read_snapshot_file (f : SnapshotFile) : Option SystemSnapshot :=
  match fromisoformat f.timestamp with
  | none => none
  | some ts => some
      { timestamp := ts
        positions := loadV f.positions
        account_balance := f.account_balance
        active_orders := loadV f.active_orders
        model_state := loadV f.model_state
        configuration := loadV f.configuration }

/-- `max(snapshot_files, key=os.path.getctime)`: Python's `max` keeps the
current maximum and replaces it only on a strictly greater key. -/
def maxByCtime (best : Nat × SnapshotFile) :
    List (Nat × SnapshotFile) → Nat × SnapshotFile
  | [] => best
  | f :: fs => maxByCtime (if best.1 < f.1 then f else best) fs

/-- `RecoveryManager.load_latest_snapshot`: with no snapshot files present
returns `None`; otherwise parses the file with the greatest creation time.
The snapshot directory is modelled as a list of (creation time, document)
pairs. -/
def load_latest_snapshot (files : List (Nat × SnapshotFile)) :
    Option SystemSnapshot :=
  match files with
  | [] => none
  | f :: fs => read_snapshot_file (maxByCtime f fs).2

/-- The `RecoveryState` enum of `recovery_manager.py`. -/
inductive RecoveryState : Type where
  | normal : RecoveryState
  | degraded : RecoveryState
  | recovery : RecoveryState
  | emergency : RecoveryState
  deriving DecidableEq, Repr

/-- The mutable state of a `RecoveryManager`: the recovery state, the
degradation level, the last in-memory snapshot, and — as the observable
trace of the persist side effect — the list of snapshot documents written
to disk so far. -/
structure RMState where
  recovery_state : RecoveryState
  degradation_level : Int
  last_snapshot : Option SystemSnapshot
  persist_log : List SnapshotFile

/-- A fresh `RecoveryManager`: state `NORMAL`, level 0, no snapshot. -/
def rmInitial : RMState :=
  { recovery_state := .normal
    degradation_level := 0
    last_snapshot := none
    persist_log := [] }

/-- `RecoveryManager.initiate_graceful_degradation`: adds `severity` to the
level clamped to 5, sets state `DEGRADED` once the level is ≥ 3, and then
applies `_apply_degradation_measures`, which sets state `EMERGENCY` when the
level is ≥ 5 (the other rungs of the ladder only log). -/
def initiate_graceful_degradation (severity : Int) (s : RMState) : RMState :=
  let lvl := min (s.degradation_level + severity) 5
  let st1 := if 3 ≤ lvl then RecoveryState.degraded else s.recovery_state
  let st2 := if 5 ≤ lvl then RecoveryState.emergency else st1
  { s with degradation_level := lvl, recovery_state := st2 }

/-- `RecoveryManager._recover_from_api_failure`: waits, then reports
success (the connectivity test is a placeholder that cannot raise). -/
def recover_from_api_failure : Bool := true

/-- `RecoveryManager._recover_from_data_failure`: switches to backup data
sources and reports success. -/
def recover_from_data_failure : Bool := true

/-- `RecoveryManager._recover_from_model_failure`: reloads the model and
reports success. -/
def recover_from_model_failure : Bool := true

/-- `RecoveryManager._recover_from_trading_halt`: waits five minutes for
trading to resume, then reports success. -/
def recover_from_trading_halt : Bool := true

/-- `RecoveryManager._recover_from_system_overload`: reduces system load
and reports success. -/
def recover_from_system_overload : Bool := true

/-- `RecoveryManager._recover_from_network_partition`: waits, tests
connectivity, and reports success. -/
def recover_from_network_partition : Bool := true

/-- The strategy table built by `_init_recovery_strategies`, keyed by
failure-type string; each entry records what the strategy returns. -/
def recovery_strategies : List (String × Bool) :=
  [("api_failure", recover_from_api_failure),
   ("data_feed_failure", recover_from_data_failure),
   ("model_failure", recover_from_model_failure),
   ("trading_halt", recover_from_trading_halt),
   ("system_overload", recover_from_system_overload),
   ("network_partition", recover_from_network_partition)]

/-- Dictionary lookup in the strategy table (`failure_type in
self.recovery_strategies` followed by indexing). -/
def lookupStrategy (ft : String) : List (String × Bool) → Option Bool
  | [] => none
  | (k, v) :: rest => if ft = k then some v else lookupStrategy ft rest

/-- `RecoveryManager.attempt_recovery`: sets state `RECOVERY`, dispatches to
the strategy keyed by `failure_type` if one exists; on success decrements
the level with floor 0 and resets state `NORMAL` exactly when the level
reaches 0; on failure or unknown failure type returns `False` with the
level unchanged (the state is left at `RECOVERY` in those paths). -/
def attempt_recovery (ft : String) (s : RMState) : Bool × RMState :=
  let s0 := { s with recovery_state := RecoveryState.recovery }
  match lookupStrategy ft recovery_strategies with
  | some success =>
    if success then
      let lvl := max 0 (s0.degradation_level - 1)
      let st := if lvl = 0 then RecoveryState.normal else s0.recovery_state
      (true, { s0 with degradation_level := lvl, recovery_state := st })
    else (false, s0)
  | none => (false, s0)

/-- `RecoveryManager.emergency_shutdown`: sets state `EMERGENCY`
unconditionally and, when an in-memory snapshot exists, persists it
(appending one more document to the persist log); with no snapshot no
persist happens. -/
def emergency_shutdown (s : RMState) : RMState :=
  let s0 := { s with recovery_state := RecoveryState.emergency }
  match s0.last_snapshot with
  | some snap => { s0 with persist_log := s0.persist_log ++ [persist_snapshot snap] }
  | none => s0

/-- One call into the `RecoveryManager` API whose effect on level and state
the claims quantify over. -/
inductive RMOp : Type where
  | degrade : Int → RMOp
  | recover : String → RMOp
  | shutdown : RMOp

/-- Effect of one API call on the manager state. -/
def rmStep (s : RMState) (op : RMOp) : RMState :=
  match op with
  | .degrade sev => initiate_graceful_degradation sev s
  | .recover ft => (attempt_recovery ft s).2
  | .shutdown => emergency_shutdown s

/-- Run a sequence of API calls from the fresh manager. -/
def runRM (ops : List RMOp) : RMState := ops.foldl rmStep rmInitial

/-- A degradation call's caller-supplied severity increment is
nonnegative (the other calls carry no increment). -/
def sevOk : RMOp → Prop
  | .degrade sev => 0 ≤ sev
  | .recover _ => True
  | .shutdown => True

/-- The `ErrorSeverity` enum of `error_handler.py`. -/
inductive ErrorSeverity : Type where
  | low : ErrorSeverity
  | medium : ErrorSeverity
  | high : ErrorSeverity
  | critical : ErrorSeverity
  deriving DecidableEq, Repr

/-- The `ErrorType` enum of `error_handler.py`. -/
inductive ErrorType : Type where
  | api_error : ErrorType
  | network_error : ErrorType
  | data_error : ErrorType
  | model_error : ErrorType
  | trading_error : ErrorType
  | system_error : ErrorType
  | validation_error : ErrorType
  deriving DecidableEq, Repr

/-- The `error_info` record `handle_error` assembles and hands to
`_send_alert` (the full event context). -/
structure ErrorInfo where
  error : String
  etype : ErrorType
  severity : ErrorSeverity
  timestamp : Int
  context : List (String × String)
  traceback : String
  deriving DecidableEq, Repr

/-- One circuit-breaker entry: activation instant and cool-down duration. -/
structure Breaker where
  activated_at : Int
  duration : Int
  deriving DecidableEq, Repr

/-- The mutable state of an `ErrorHandler`: the per-category recent-error
timestamp lists (`error_counts`), the per-category breaker entries
(`circuit_breakers`), the last event per category (`last_errors`), and — as
the observable trace of `_send_alert` — the list of alerted events.
The dicts keyed by `ErrorType` are modelled as functions into `Option`
(`none` = key absent). -/
structure EHState where
  error_counts : ErrorType → Option (List Int)
  circuit_breakers : ErrorType → Option Breaker
  last_errors : ErrorType → Option ErrorInfo
  alerts : List ErrorInfo

/-- A fresh `ErrorHandler`: all dicts empty, nothing alerted. -/
def ehInitial : EHState :=
  { error_counts := fun _ => none
    circuit_breakers := fun _ => none
    last_errors := fun _ => none
    alerts := [] }

/-- The pruning step of `_update_error_tracking`: append the new timestamp,
then keep only the timestamps newer than one hour before it
(`ts > cutoff_time` with `cutoff_time = now - timedelta(hours=1)`). -/
def window_update (acc : List Int) (t : Int) : List Int :=
  (acc ++ [t]).filter (fun x => decide (t - 3600 < x))

/-- `ErrorHandler._update_error_tracking`: ensures the category's timestamp
list exists, appends the event timestamp, records the event in
`last_errors`, and prunes entries older than one hour. -/
def update_error_tracking (et : ErrorType) (now : Int) (info : ErrorInfo)
    (s : EHState) : EHState :=
  { s with
    error_counts := fun k =>
      if k = et then some (window_update ((s.error_counts et).getD []) now)
      else s.error_counts k
    last_errors := fun k => if k = et then some info else s.last_errors k }

/-- `ErrorHandler._should_circuit_break`: `False` when the category was
never tracked; otherwise true iff the recent-error count has reached the
category's configured threshold (`config` default 5).  Read-only: it
returns a plain boolean and touches no state. -/
def should_circuit_break (thr : ErrorType → Nat) (et : ErrorType)
    (s : EHState) : Bool :=
  match s.error_counts et with
  | none => false
  | some l => decide (thr et ≤ l.length)

/-- The default per-category breaker threshold
(`self.config.get('circuit_breaker', {}).get(error_type.value, 5)`). -/
def defaultThreshold : ErrorType → Nat := fun _ => 5

/-- `ErrorHandler._activate_circuit_breaker`: creates/overwrites the
category's breaker entry with `activated_at = now` and the configured
cool-down duration. -/
def activate_circuit_breaker (et : ErrorType) (now dur : Int)
    (s : EHState) : EHState :=
  { s with circuit_breakers := fun k =>
      if k = et then some { activated_at := now, duration := dur }
      else s.circuit_breakers k }

/-- `ErrorHandler._recover_from_api_error`: waits, then reports success. -/
def recover_from_api_error : Bool := true

/-- `ErrorHandler._recover_from_network_error`: backs off (capped at 60s),
then reports success. -/
def recover_from_network_error : Bool := true

/-- `ErrorHandler._recover_from_data_error`: switches to cached data and
reports success. -/
def recover_from_data_error : Bool := true

/-- `ErrorHandler._recover_from_model_error`: falls back to a rule-based
strategy and reports success. -/
def recover_from_model_error : Bool := true

/-- `ErrorHandler._recover_from_trading_error`: reports failure by policy
(conservative approach for trading errors). -/
def recover_from_trading_error : Bool := false

/-- `ErrorHandler._recover_from_system_error`: reports failure by policy
(may need manual intervention). -/
def recover_from_system_error : Bool := false

/-- `ErrorHandler._recover_from_validation_error`: skips the invalid data
and reports success. -/
def recover_from_validation_error : Bool := true

/-- `ErrorHandler._attempt_recovery`: dispatch through the strategy table
of `_init_recovery_strategies`, which registers a strategy for every
`ErrorType`; records what the chosen strategy returns. -/
def eh_attempt_recovery : ErrorType → Bool
  | .api_error => recover_from_api_error
  | .network_error => recover_from_network_error
  | .data_error => recover_from_data_error
  | .model_error => recover_from_model_error
  | .trading_error => recover_from_trading_error
  | .system_error => recover_from_system_error
  | .validation_error => recover_from_validation_error

/-- `ErrorHandler.handle_error`: builds `error_info`, logs it, updates
tracking, and then either (a) activates the circuit breaker and returns
`False` — before any alert is sent — when `_should_circuit_break` fires, or
(b) attempts recovery and, for High/Critical severity, appends the full
`error_info` to the alert trace, returning the recovery outcome. -/
def handle_error (msg : String) (et : ErrorType) (sev : ErrorSeverity)
    (ctx : List (String × String)) (tb : String) (now : Int)
    (thr : ErrorType → Nat) (dur : Int) (s : EHState) : Bool × EHState :=
  let info : ErrorInfo :=
    { error := msg, etype := et, severity := sev, timestamp := now
      context := ctx, traceback := tb }
  let s1 := update_error_tracking et now info s
  if should_circuit_break thr et s1 then
    (false, activate_circuit_breaker et now dur s1)
  else
    let ok := eh_attempt_recovery et
    let s2 :=
      if sev = ErrorSeverity.high ∨ sev = ErrorSeverity.critical then
        { s1 with alerts := s1.alerts ++ [info] }
      else s1
    (ok, s2)

/-- `ErrorHandler.is_circuit_breaker_active`: `False` when no entry exists;
when the entry has expired (`now - activated_at > duration`, strictly)
deletes it, logs the reset, and returns `False`; otherwise `True`.
Returns (result, new state, whether the expiry branch ran). -/
def is_circuit_breaker_active (et : ErrorType) (now : Int) (s : EHState) :
    Bool × EHState × Bool :=
  match s.circuit_breakers et with
  | none => (false, s, false)
  | some b =>
    if b.duration < now - b.activated_at then
      (false,
       { s with circuit_breakers := fun k =>
           if k = et then none else s.circuit_breakers k },
       true)
    else (true, s, false)

/-- One `_update_error_tracking` call for category `et` at time `t` (the
event record carries the same timestamp). -/
def trackStep (et : ErrorType) (s : EHState) (t : Int) : EHState :=
  update_error_tracking et t
    { error := "", etype := et, severity := ErrorSeverity.medium
      timestamp := t, context := [], traceback := "" } s

/-- Run `_update_error_tracking` for one category at each time in order,
starting from the fresh handler (the bookkeeping the breaker check reads). -/
def runTracking (et : ErrorType) (ts : List Int) : EHState :=
  ts.foldl (trackStep et) ehInitial

/-- The invariant the `RecoveryManager` state machine maintains: the level
stays within [0, 5] and the `DEGRADED` state is only held at levels 3-4. -/
def rmInv (s : RMState) : Prop :=
  0 ≤ s.degradation_level ∧ s.degradation_level ≤ 5 ∧
  (s.recovery_state = RecoveryState.degraded →
    3 ≤ s.degradation_level ∧ s.degradation_level ≤ 4)

/-- Run a sequence of `handle_error` calls (category, severity, time) with
default thresholds and a 900-unit cool-down, from the fresh handler. -/
def runEH (events : List (ErrorType × ErrorSeverity × Int)) : EHState :=
  events.foldl (fun s e =>
    (handle_error "boom" e.1 e.2.1 [] "" e.2.2 defaultThreshold 900 s).2)
    ehInitial

/-- The loop of `retry_with_backoff` (the blocking wrapper), at attempt
number `attempt` with `remaining = max_retries - attempt` retries left:
the outcome of attempt `k` of the wrapped operation is `f k`; on an error
while retries remain (`attempt < max_retries`) the wrapper sleeps
`base_delay * 2 ** attempt` and retries; on an error at the last attempt
it re-raises the last observed error.  Returns (final outcome, the
sequence of inter-attempt delays performed, the number of attempts
made). -/
def retryGo {E A : Type} (f : Nat → Except E A) (base : Rat)
    (attempt : Nat) : Nat → Except E A × List Rat × Nat
  | 0 =>
    match f attempt with
    | .ok a => (.ok a, [], 1)
    | .error e => (.error e, [], 1)
  | remaining + 1 =>
    match f attempt with
    | .ok a => (.ok a, [], 1)
    | .error _ =>
      let r := retryGo f base (attempt + 1) remaining
      (r.1, base * 2 ^ attempt :: r.2.1, r.2.2 + 1)

/-- `retry_with_backoff(max_retries, base_delay)` applied to an operation
whose attempt-`k` outcome is `f k`. -/
def retry_with_backoff {E A : Type} (maxRetries : Nat) (base : Rat)
    (f : Nat → Except E A) : Except E A × List Rat × Nat :=
  retryGo f base 0 maxRetries

/-- `async_retry_with_backoff`: the suspendable wrapper; its loop body is
identical to the blocking one, with `asyncio.sleep` in place of
`time.sleep`. -/
def async_retry_with_backoff {E A : Type} (maxRetries : Nat) (base : Rat)
    (f : Nat → Except E A) : Except E A × List Rat × Nat :=
  retryGo f base 0 maxRetries

/-- A concrete snapshot (the scenario-5 shape: one position, balance
15000, no open orders). -/
def sampleSnapshot : SystemSnapshot :=
  { timestamp := ⟨2024, 1, 2, 3, 4, 5, 0⟩
    positions := PyValue.pobj [PyField.mk [65, 65, 80, 76]
      (PyValue.pobj [PyField.mk [113, 116, 121] (PyValue.pnum 10)])]
    account_balance := 15000
    active_orders := PyValue.parr []
    model_state := PyValue.pobj []
    configuration := PyValue.pobj [] }

/-- A manager state holding an in-memory snapshot (as after
`create_system_snapshot`), with nothing persisted yet. -/
def rmWithSnapshot : RMState :=
  { rmInitial with last_snapshot := some sampleSnapshot }

/-- Four High-severity API events within the hour (threshold 5 is reached
on the fifth). -/
def fourHighApiEvents : List (ErrorType × ErrorSeverity × Int) :=
  [(ErrorType.api_error, ErrorSeverity.high, 0),
   (ErrorType.api_error, ErrorSeverity.high, 1),
   (ErrorType.api_error, ErrorSeverity.high, 2),
   (ErrorType.api_error, ErrorSeverity.high, 3)]

/-! Theorems.  First the serialization round-trip lemmas, then the
window/breaker lemmas, then one theorem per claim. -/

/-- Reading a zero-padded digit code point yields the digit. -/
theorem readDigit_pad (x : Nat) : readDigit (48 + x % 10) = some (x % 10) := by
  rw [readDigit, if_pos (by omega)]
  simp

/-- Reading back two-digit zero-padded rendering. -/
theorem read2_pad2 (n : Nat) (h : n ≤ 99) (rest : List Nat) :
    read2 (pad2 n ++ rest) = some (n, rest) := by
  simp only [pad2, List.cons_append, List.nil_append, read2, readDigit_pad]
  congr 1
  simp only [Prod.mk.injEq, and_true]
  omega

/-- Reading back four-digit zero-padded rendering. -/
theorem read4_pad4 (n : Nat) (h : n ≤ 9999) (rest : List Nat) :
    read4 (pad4 n ++ rest) = some (n, rest) := by
  simp only [pad4, List.cons_append, List.nil_append, read4, readDigit_pad]
  congr 1
  simp only [Prod.mk.injEq, and_true]
  omega

/-- Reading back six-digit zero-padded rendering. -/
theorem read6_pad6 (n : Nat) (h : n ≤ 999999) (rest : List Nat) :
    read6 (pad6 n ++ rest) = some (n, rest) := by
  have e1 : pad6 n ++ rest =
      pad2 (n / 10000) ++ (pad2 (n / 100 % 100) ++ (pad2 (n % 100) ++ rest)) := by
    simp [pad6, List.append_assoc]
  rw [read6, e1, read2_pad2 _ (by omega)]
  simp only [Option.some_bind]
  rw [read2_pad2 _ (by omega)]
  simp only [Option.some_bind]
  rw [read2_pad2 _ (by omega)]
  simp only [Option.some_bind, Option.some.injEq, Prod.mk.injEq, and_true]
  omega

/-- Reading an expected separator off the front of the list. -/
theorem readSep_cons (c : Nat) (rest : List Nat) :
    readSep c (c :: rest) = some rest := by
  simp [readSep]

/-- `validRange` implies its boolean form. -/
theorem validRangeB_of (d : PyDateTime) (h : validRange d) :
    validRangeB d = true := by
  obtain ⟨h1, h2, h3, h4, h5, h6, h7, h8, h9, h10⟩ := h
  simp only [validRangeB, Bool.and_eq_true, decide_eq_true_eq]
  omega

/-- Reading back six-digit zero-padded rendering with nothing following. -/
theorem read6_pad6_nil (n : Nat) (h : n ≤ 999999) :
    read6 (pad6 n) = some (n, []) := by
  have e := read6_pad6 n h []
  rwa [List.append_nil] at e

set_option maxHeartbeats 2000000 in
/-- `datetime.fromisoformat` inverts `datetime.isoformat` on every
constructible datetime: the timestamp a snapshot file stores parses back
to the original timestamp. -/
theorem fromisoformat_isoformat (d : PyDateTime) (h : validRange d) :
    fromisoformat (isoformat d) = some d := by
  have hrange := validRangeB_of d h
  obtain ⟨hy1, hy2, hmo1, hmo2, hda1, hda2, hhh, hmi, hss, huu⟩ := h
  by_cases hu : d.microsecond = 0
  · have hd0 : (⟨d.year, d.month, d.day, d.hour, d.minute, d.second, 0⟩ :
        PyDateTime) = d := by rw [← hu]
    rw [fromisoformat, isoformat, if_pos hu]
    rw [read4_pad4 d.year hy2]
    simp only [Option.some_bind, List.cons_append]
    rw [readSep_cons 45]
    simp only [Option.some_bind]
    rw [read2_pad2 d.month (by omega)]
    simp only [Option.some_bind]
    rw [readSep_cons 45]
    simp only [Option.some_bind]
    rw [read2_pad2 d.day (by omega)]
    simp only [Option.some_bind]
    rw [readSep_cons 84]
    simp only [Option.some_bind]
    rw [read2_pad2 d.hour (by omega)]
    simp only [Option.some_bind]
    rw [readSep_cons 58]
    simp only [Option.some_bind]
    rw [read2_pad2 d.minute (by omega)]
    simp only [Option.some_bind]
    rw [readSep_cons 58]
    simp only [Option.some_bind]
    rw [read2_pad2 d.second (by omega)]
    simp only [Option.some_bind]
    rw [hd0, checkRange, if_pos hrange]
  · have hd0 : (⟨d.year, d.month, d.day, d.hour, d.minute, d.second,
        d.microsecond⟩ : PyDateTime) = d := rfl
    rw [fromisoformat, isoformat, if_neg hu]
    simp only [List.cons_append, Option.some_bind,
      read4_pad4 d.year hy2, read2_pad2 d.month (by omega),
      read2_pad2 d.day (by omega), read2_pad2 d.hour (by omega),
      read2_pad2 d.minute (by omega), read2_pad2 d.second (by omega),
      readSep_cons, read6_pad6_nil d.microsecond (by omega)]
    rw [hd0, checkRange, if_pos hrange]

mutual

/-- A JSON-representable Python value survives `json.dump` / `json.load`
unchanged. -/
theorem loadV_dumpV : ∀ v : PyValue, jsonableV v = true → loadV (dumpV v) = v
  | .pnull, _ => rfl
  | .pbool _, _ => rfl
  | .pnum _, _ => rfl
  | .pstr _, _ => rfl
  | .pdatetime _, h => by simp [jsonableV] at h
  | .parr xs, h => by rw [dumpV, loadV, loadL_dumpL xs h]
  | .pobj fs, h => by rw [dumpV, loadV, loadF_dumpF fs h]

/-- Element-wise round trip for JSON arrays. -/
theorem loadL_dumpL : ∀ xs : List PyValue, jsonableL xs = true →
    loadL (dumpL xs) = xs
  | [], _ => rfl
  | x :: xs, h => by
    rw [jsonableL, Bool.and_eq_true] at h
    rw [dumpL, loadL, loadV_dumpV x h.1, loadL_dumpL xs h.2]

/-- Member-wise round trip for JSON objects. -/
theorem loadF_dumpF : ∀ fs : List PyField, jsonableF fs = true →
    loadF (dumpF fs) = fs
  | [], _ => rfl
  | .mk k v :: fs, h => by
    rw [jsonableF, Bool.and_eq_true] at h
    rw [dumpF, loadF, loadV_dumpV v h.1, loadF_dumpF fs h.2]

end

/-- Reading back the snapshot document `_persist_snapshot` writes yields
the original snapshot, provided its timestamp is a constructible datetime
and its payload fields are natively JSON-representable. -/
theorem read_persist (s : SystemSnapshot) (ht : validRange s.timestamp)
    (hp : jsonableV s.positions = true) (ho : jsonableV s.active_orders = true)
    (hm : jsonableV s.model_state = true)
    (hc : jsonableV s.configuration = true) :
    read_snapshot_file (persist_snapshot s) = some s := by
  rw [read_snapshot_file, persist_snapshot]
  dsimp only
  rw [fromisoformat_isoformat s.timestamp ht, loadV_dumpV _ hp,
    loadV_dumpV _ ho, loadV_dumpV _ hm, loadV_dumpV _ hc]

/-- Python's `max` by creation time selects a file whose key strictly
dominates the current best and every remaining file. -/
theorem maxByCtime_last (f0 : Nat × SnapshotFile)
    (fs : List (Nat × SnapshotFile)) (g : Nat × SnapshotFile)
    (h0 : f0.1 < g.1) (h : ∀ p ∈ fs, p.1 < g.1) :
    maxByCtime f0 (fs ++ [g]) = g := by
  induction fs generalizing f0 with
  | nil =>
    rw [List.nil_append, maxByCtime, if_pos h0, maxByCtime]
  | cons p ps ih =>
    rw [List.cons_append, maxByCtime]
    refine ih _ ?_ (fun q hq => h q (List.mem_cons_of_mem _ hq))
    by_cases hp : f0.1 < p.1
    · rw [if_pos hp]
      exact h p (List.mem_cons_self _ _)
    · rw [if_neg hp]
      exact h0

/-- Filtering by a later cutoff subsumes filtering by an earlier one. -/
theorem filter_cutoff_sub (l : List Int) (a b : Int) (hab : a ≤ b) :
    (l.filter (fun x => decide (a < x))).filter (fun x => decide (b < x)) =
      l.filter (fun x => decide (b < x)) := by
  induction l with
  | nil => rfl
  | cons x xs ih =>
    by_cases h2 : b < x
    · have h1 : a < x := by omega
      simp [List.filter_cons, h1, h2, ih]
    · by_cases h1 : a < x
      · simp [List.filter_cons, h1, h2, ih]
      · simp [List.filter_cons, h1, h2, ih]

/-- After pruning at each of a nondecreasing sequence of update times, the
stored window is exactly the recorded timestamps within one hour of the
last update. -/
theorem windowFold : ∀ (ts : List Int) (t : Int),
    List.Sorted (· ≤ ·) (ts ++ [t]) →
    (ts ++ [t]).foldl window_update [] =
      (ts ++ [t]).filter (fun x => decide (t - 3600 < x)) := by
  intro ts
  induction ts using List.reverseRecOn with
  | nil =>
    intro t hs
    have hself : decide (t - 3600 < t) = true := by
      simp only [decide_eq_true_eq]
      omega
    simp [window_update, hself]
  | append_singleton ts0 t0 ih =>
    intro t hs
    have hsorted0 : List.Sorted (· ≤ ·) (ts0 ++ [t0]) :=
      hs.sublist (List.sublist_append_left _ _)
    have ht0t : t0 ≤ t := by
      have hp := (List.pairwise_append.mp hs).2.2
      exact hp t0 (List.mem_append_right _ (List.mem_singleton_self _)) t
        (List.mem_singleton_self _)
    rw [List.foldl_append, ih t0 hsorted0]
    simp only [List.foldl_cons, List.foldl_nil, window_update]
    rw [List.filter_append, filter_cutoff_sub _ _ _ (by omega : t0 - 3600 ≤ t - 3600),
      ← List.filter_append]

/-- The stored window for a category after a run of updates is the fold of
`window_update` over the update times. -/
theorem fold_tracking (et : ErrorType) : ∀ (ts : List Int) (t : Int)
    (s : EHState),
    (((t :: ts).foldl (trackStep et) s).error_counts) et =
      some ((t :: ts).foldl window_update ((s.error_counts et).getD [])) := by
  intro ts
  induction ts with
  | nil =>
    intro t s
    simp [trackStep, update_error_tracking]
  | cons t2 ts2 ih =>
    intro t s
    have hstep : ((trackStep et s t).error_counts) et =
        some (window_update ((s.error_counts et).getD []) t) := by
      simp [trackStep, update_error_tracking]
    rw [List.foldl_cons, ih t2 (trackStep et s t), hstep]
    rfl

/-- Every `RecoveryManager` API call preserves the state-machine
invariant, for nonnegative severity increments. -/
theorem rmStep_inv (s : RMState) (op : RMOp) (hinv : rmInv s)
    (hop : sevOk op) : rmInv (rmStep s op) := by
  obtain ⟨h0, h5, hdeg⟩ := hinv
  cases op with
  | degrade sev =>
    simp only [sevOk] at hop
    simp only [rmStep, initiate_graceful_degradation, rmInv]
    by_cases hc5 : 5 ≤ min (s.degradation_level + sev) 5
    · rw [if_pos hc5]
      refine ⟨by omega, by omega, fun hst => ?_⟩
      cases hst
    · rw [if_neg hc5]
      by_cases hc3 : 3 ≤ min (s.degradation_level + sev) 5
      · rw [if_pos hc3]
        exact ⟨by omega, by omega, fun _ => by omega⟩
      · rw [if_neg hc3]
        refine ⟨by omega, by omega, fun hst => ?_⟩
        have := hdeg hst
        omega
  | recover ft =>
    cases hls : lookupStrategy ft recovery_strategies with
    | none =>
      simp only [rmStep, attempt_recovery, hls]
      exact ⟨h0, h5, fun hst => by cases hst⟩
    | some b =>
      cases b with
      | false =>
        simp only [rmStep, attempt_recovery, hls, Bool.false_eq_true,
          if_false]
        exact ⟨h0, h5, fun hst => by cases hst⟩
      | true =>
        simp only [rmStep, attempt_recovery, hls, if_true]
        by_cases hz : max 0 (s.degradation_level - 1) = 0
        · rw [if_pos hz]
          exact ⟨by dsimp only; omega, by dsimp only; omega,
            fun hst => by cases hst⟩
        · rw [if_neg hz]
          exact ⟨by dsimp only; omega, by dsimp only; omega,
            fun hst => by cases hst⟩
  | shutdown =>
    simp only [rmStep, emergency_shutdown]
    cases hsnap : s.last_snapshot with
    | none => exact ⟨h0, h5, fun hst => by cases hst⟩
    | some snap => exact ⟨h0, h5, fun hst => by cases hst⟩

/-- The invariant holds along every run from the fresh manager state. -/
theorem rmInv_fold : ∀ (ops : List RMOp) (s : RMState), rmInv s →
    (∀ op ∈ ops, sevOk op) → rmInv (ops.foldl rmStep s) := by
  intro ops
  induction ops with
  | nil => exact fun s hs _ => hs
  | cons op ops ih =>
    intro s hs hops
    rw [List.foldl_cons]
    exact ih _ (rmStep_inv s op hs (hops op (List.mem_cons_self _ _)))
      (fun q hq => hops q (List.mem_cons_of_mem _ hq))

/-- The invariant for complete runs. -/
theorem rmInv_runRM (ops : List RMOp) (hops : ∀ op ∈ ops, sevOk op) :
    rmInv (runRM ops) :=
  rmInv_fold ops rmInitial ⟨by decide, by decide, fun h => by cases h⟩ hops

/-- After a nondecreasing run of updates for one category, the stored
entry is exactly the timestamps within one hour of the last update. -/
theorem runTracking_entry (et : ErrorType) (ts : List Int) (t : Int)
    (hs : List.Sorted (· ≤ ·) (ts ++ [t])) :
    (runTracking et (ts ++ [t])).error_counts et =
      some ((ts ++ [t]).filter (fun x => decide (t - 3600 < x))) := by
  cases hl : ts ++ [t] with
  | nil => exact absurd hl (by simp)
  | cons a as =>
    have hbase : ((ehInitial.error_counts et).getD []) = ([] : List Int) := rfl
    rw [runTracking, fold_tracking et as a ehInitial, hbase, ← hl,
      windowFold ts t hs]

/-- Claim C5 (confirmed): both the blocking and the asynchronous retry
wrapper, with `max_retries = 3` and `base_delay = 1.0`, applied to an
operation failing on every attempt, perform exactly 4 attempts with
inter-attempt delays 1, 2, 4 and then propagate the last observed error
unchanged. -/
theorem c5_retry_exponential_backoff {E A : Type} (f : Nat → Except E A)
    (e : Nat → E) (hf : ∀ k, f k = Except.error (e k)) :
    retry_with_backoff 3 1 f = (Except.error (e 3), [1, 2, 4], 4) ∧
    async_retry_with_backoff 3 1 f = (Except.error (e 3), [1, 2, 4], 4) := by
  have h : retryGo f 1 0 3 = (Except.error (e 3), [1, 2, 4], 4) := by
    norm_num [retryGo, hf]
  exact ⟨h, h⟩

/-- Witness for C5 at a concrete always-failing operation. -/
theorem c5_witness :
    retry_with_backoff 3 1 (fun k => (Except.error k : Except Nat Nat)) =
      (Except.error 3, [1, 2, 4], 4) ∧
    async_retry_with_backoff 3 1 (fun k => (Except.error k : Except Nat Nat)) =
      (Except.error 3, [1, 2, 4], 4) :=
  c5_retry_exponential_backoff (fun k => Except.error k) (fun k => k)
    (fun _ => rfl)

/-- Claim C6 (confirmed): after recording a category's errors at
nondecreasing times, `_should_circuit_break` is true iff the number of
recorded timestamps within the trailing hour of the last update has
reached the category's threshold; it is false at threshold minus one, and
false on the fresh handler.  The check itself is a pure function of the
state (it returns only a boolean), so it mutates no breaker state by
construction. -/
theorem c6_should_break (et : ErrorType) (thr : ErrorType → Nat)
    (ts : List Int) (t : Int) (hs : List.Sorted (· ≤ ·) (ts ++ [t]))
    (hpos : 0 < thr et) :
    (should_circuit_break thr et (runTracking et (ts ++ [t])) = true ↔
      thr et ≤ ((ts ++ [t]).filter (fun x => decide (t - 3600 < x))).length) ∧
    (((ts ++ [t]).filter (fun x => decide (t - 3600 < x))).length =
        thr et - 1 →
      should_circuit_break thr et (runTracking et (ts ++ [t])) = false) ∧
    should_circuit_break thr et ehInitial = false := by
  have hentry := runTracking_entry et ts t hs
  refine ⟨?_, ?_, rfl⟩
  · rw [should_circuit_break, hentry]
    exact decide_eq_true_iff
  · intro hlen
    rw [should_circuit_break, hentry]
    exact decide_eq_false (by omega)

/-- Witness for C6: five API errors at times 0..4 trip the breaker check. -/
theorem c6_witness :
    should_circuit_break defaultThreshold ErrorType.api_error
      (runTracking ErrorType.api_error ([0, 1, 2, 3] ++ [4])) = true :=
  (c6_should_break ErrorType.api_error defaultThreshold [0, 1, 2, 3] 4
    (by decide) (by decide)).1.mpr (by decide)

/-- Claim C7 (confirmed): `is_circuit_breaker_active` is true exactly while
an entry exists whose age has not strictly exceeded its cool-down; on the
first query after expiry the entry is removed (reset branch runs) and the
result is false; a second query finds no entry, returns false again,
does not run the reset branch, and leaves the state unchanged. -/
theorem c7_breaker_expiry :
    (∀ (et : ErrorType) (now : Int) (s : EHState),
      (is_circuit_breaker_active et now s).1 = true ↔
        ∃ b, s.circuit_breakers et = some b ∧
          now - b.activated_at ≤ b.duration) ∧
    (∀ (et : ErrorType) (now : Int) (s : EHState) (b : Breaker),
      s.circuit_breakers et = some b → b.duration < now - b.activated_at →
      (is_circuit_breaker_active et now s).1 = false ∧
      (is_circuit_breaker_active et now s).2.2 = true ∧
      ((is_circuit_breaker_active et now s).2.1).circuit_breakers et = none ∧
      (is_circuit_breaker_active et now
        (is_circuit_breaker_active et now s).2.1).1 = false ∧
      (is_circuit_breaker_active et now
        (is_circuit_breaker_active et now s).2.1).2.2 = false ∧
      (is_circuit_breaker_active et now
        (is_circuit_breaker_active et now s).2.1).2.1 =
        (is_circuit_breaker_active et now s).2.1) := by
  constructor
  · intro et now s
    cases hcb : s.circuit_breakers et with
    | none => simp [is_circuit_breaker_active, hcb]
    | some b =>
      by_cases hd : b.duration < now - b.activated_at
      · simp only [is_circuit_breaker_active, hcb, if_pos hd]
        simp only [Bool.false_eq_true, false_iff, not_exists, not_and]
        intro b2 hb2
        rw [Option.some.injEq] at hb2
        subst hb2
        omega
      · simp only [is_circuit_breaker_active, hcb, if_neg hd]
        simp only [true_iff]
        exact ⟨b, rfl, by omega⟩
  · intro et now s b hcb hd
    have h1 : is_circuit_breaker_active et now s =
        (false, { s with circuit_breakers := fun k =>
          if k = et then none else s.circuit_breakers k }, true) := by
      simp only [is_circuit_breaker_active, hcb, if_pos hd]
    have h2 : ({ s with circuit_breakers := fun k =>
        if k = et then none else s.circuit_breakers k } :
          EHState).circuit_breakers et = none := by
      simp
    have h3 : is_circuit_breaker_active et now
        { s with circuit_breakers := fun k =>
          if k = et then none else s.circuit_breakers k } =
        (false, { s with circuit_breakers := fun k =>
          if k = et then none else s.circuit_breakers k }, false) := by
      simp [is_circuit_breaker_active]
    rw [h1]
    exact ⟨rfl, rfl, h2, by rw [h3], by rw [h3], by rw [h3]⟩

/-- Witness for C7 at a breaker activated at time 0 with a 900-unit
cool-down, queried at time 1000. -/
theorem c7_witness :
    (is_circuit_breaker_active ErrorType.api_error 1000
      { ehInitial with circuit_breakers := fun k =>
        if k = ErrorType.api_error then some ⟨0, 900⟩ else none }).1 = false ∧
    (is_circuit_breaker_active ErrorType.api_error 1000
      { ehInitial with circuit_breakers := fun k =>
        if k = ErrorType.api_error then some ⟨0, 900⟩ else none }).2.2 = true ∧
    ((is_circuit_breaker_active ErrorType.api_error 1000
      { ehInitial with circuit_breakers := fun k =>
        if k = ErrorType.api_error then some ⟨0, 900⟩ else
          none }).2.1).circuit_breakers ErrorType.api_error = none ∧
    (is_circuit_breaker_active ErrorType.api_error 1000
      (is_circuit_breaker_active ErrorType.api_error 1000
        { ehInitial with circuit_breakers := fun k =>
          if k = ErrorType.api_error then some ⟨0, 900⟩ else
            none }).2.1).1 = false ∧
    (is_circuit_breaker_active ErrorType.api_error 1000
      (is_circuit_breaker_active ErrorType.api_error 1000
        { ehInitial with circuit_breakers := fun k =>
          if k = ErrorType.api_error then some ⟨0, 900⟩ else
            none }).2.1).2.2 = false ∧
    (is_circuit_breaker_active ErrorType.api_error 1000
      (is_circuit_breaker_active ErrorType.api_error 1000
        { ehInitial with circuit_breakers := fun k =>
          if k = ErrorType.api_error then some ⟨0, 900⟩ else
            none }).2.1).2.1 =
      (is_circuit_breaker_active ErrorType.api_error 1000
        { ehInitial with circuit_breakers := fun k =>
          if k = ErrorType.api_error then some ⟨0, 900⟩ else
            none }).2.1 :=
  c7_breaker_expiry.2 ErrorType.api_error 1000 _ ⟨0, 900⟩ (by simp)
    (by norm_num)

/-- Claim C8 (confirmed): for any sequence of `initiate_graceful_degradation`
calls with nonnegative caller-supplied severity increments, `attempt_recovery`
calls (successful ones included) and shutdowns, the degradation level stays
in [0, 5]. -/
theorem c8_level_bounds (ops : List RMOp) (hops : ∀ op ∈ ops, sevOk op) :
    0 ≤ (runRM ops).degradation_level ∧
    (runRM ops).degradation_level ≤ 5 :=
  ⟨(rmInv_runRM ops hops).1, (rmInv_runRM ops hops).2.1⟩

/-- Witness for C8 on a run that saturates the level and then recovers. -/
theorem c8_witness :
    0 ≤ (runRM [RMOp.degrade 2, RMOp.degrade 9,
      RMOp.recover "api_failure"]).degradation_level ∧
    (runRM [RMOp.degrade 2, RMOp.degrade 9,
      RMOp.recover "api_failure"]).degradation_level ≤ 5 :=
  c8_level_bounds [RMOp.degrade 2, RMOp.degrade 9,
    RMOp.recover "api_failure"] (by simp [sevOk])

/-- Claim C10 (confirmed): for a failure-type string outside the six
registered strategy keys, `attempt_recovery` returns `False` with the
degradation level unchanged, and both sets and leaves the recovery state
at `RECOVERY`. -/
theorem c10_unknown_failure_type (ft : String) (s : RMState)
    (hft : ft ∉ ["api_failure", "data_feed_failure", "model_failure",
      "trading_halt", "system_overload", "network_partition"]) :
    attempt_recovery ft s =
      (false, { s with recovery_state := RecoveryState.recovery }) := by
  have hne : ¬ ft = "api_failure" ∧ ¬ ft = "data_feed_failure" ∧
      ¬ ft = "model_failure" ∧ ¬ ft = "trading_halt" ∧
      ¬ ft = "system_overload" ∧ ¬ ft = "network_partition" := by
    simpa using hft
  obtain ⟨h1, h2, h3, h4, h5, h6⟩ := hne
  have hls : lookupStrategy ft recovery_strategies = none := by
    simp [lookupStrategy, recovery_strategies, h1, h2, h3, h4, h5, h6]
  rw [attempt_recovery, hls]

/-- Witness for C10 at the unregistered key "disk_failure". -/
theorem c10_witness :
    attempt_recovery "disk_failure" rmInitial =
      (false, { rmInitial with recovery_state := RecoveryState.recovery }) :=
  c10_unknown_failure_type "disk_failure" rmInitial (by simp)

/-- When the failure type is registered (every registered strategy returns
`True`), `attempt_recovery` decrements the level with floor 0 and ends in
`NORMAL` exactly when the level reaches 0, otherwise in `RECOVERY`. -/
theorem attempt_recovery_success (ft : String) (s : RMState)
    (hls : lookupStrategy ft recovery_strategies = some true) :
    attempt_recovery ft s =
      (true, { s with
        degradation_level := max 0 (s.degradation_level - 1),
        recovery_state :=
          if max 0 (s.degradation_level - 1) = 0 then RecoveryState.normal
          else RecoveryState.recovery }) := by
  rw [attempt_recovery, hls]
  rfl

/-- Counterexample to claim C1 as stated: after a single
`emergency_shutdown` the state is `EMERGENCY` while the level is 0, so
"Emergency iff level = 5" fails on a reachable state. -/
theorem c1_counterexample :
    (runRM [RMOp.shutdown]).recovery_state = RecoveryState.emergency ∧
    (runRM [RMOp.shutdown]).degradation_level ≠ 5 :=
  ⟨rfl, by decide⟩

/-- Claim C1 (amended): on every reachable state (nonnegative severity
increments), `DEGRADED` holds only at levels 3-4; degradation that drives
the level to 5 yields `EMERGENCY`; but Emergency is not equivalent to
level 5 (`emergency_shutdown` enters it at any level), and when
`attempt_recovery` returns failure — or success with the level still
positive — the state is left at `RECOVERY`, not `DEGRADED` (a prior
`EMERGENCY` is likewise overwritten). -/
theorem c1_state_machine :
    (∀ ops : List RMOp, (∀ op ∈ ops, sevOk op) →
      ((runRM ops).recovery_state = RecoveryState.degraded →
        3 ≤ (runRM ops).degradation_level ∧
        (runRM ops).degradation_level ≤ 4)) ∧
    (∀ (sev : Int) (s : RMState),
      (initiate_graceful_degradation sev s).degradation_level = 5 →
      (initiate_graceful_degradation sev s).recovery_state =
        RecoveryState.emergency) ∧
    (∀ (ft : String) (s : RMState),
      ((attempt_recovery ft s).1 = false →
        (attempt_recovery ft s).2.recovery_state = RecoveryState.recovery) ∧
      ((attempt_recovery ft s).1 = true →
        (attempt_recovery ft s).2.degradation_level ≠ 0 →
        (attempt_recovery ft s).2.recovery_state = RecoveryState.recovery)) := by
  refine ⟨fun ops hops => (rmInv_runRM ops hops).2.2, ?_, ?_⟩
  · intro sev s h5
    simp only [initiate_graceful_degradation] at h5 ⊢
    rw [if_pos (by omega : (5 : Int) ≤ min (s.degradation_level + sev) 5)]
  · intro ft s
    cases hls : lookupStrategy ft recovery_strategies with
    | none =>
      refine ⟨fun _ => ?_, fun htrue _ => ?_⟩
      · rw [attempt_recovery, hls]
      · rw [attempt_recovery, hls] at htrue
        simp at htrue
    | some b =>
      cases b with
      | false =>
        refine ⟨fun _ => ?_, fun htrue _ => ?_⟩
        · rw [attempt_recovery, hls]
          simp
        · rw [attempt_recovery, hls] at htrue
          simp at htrue
      | true =>
        refine ⟨fun hfail => ?_, fun _ hlvl => ?_⟩
        · rw [attempt_recovery_success ft s hls] at hfail
          simp at hfail
        · rw [attempt_recovery_success ft s hls] at hlvl ⊢
          dsimp only at hlvl ⊢
          rw [if_neg hlvl]

/-- Witness for the amended C1: a single degradation by 3 gives the
Degraded state at level 3. -/
theorem c1_witness :
    3 ≤ (runRM [RMOp.degrade 3]).degradation_level ∧
    (runRM [RMOp.degrade 3]).degradation_level ≤ 4 :=
  (c1_state_machine.1 [RMOp.degrade 3] (by simp [sevOk])) (by decide)

/-- Counterexample to claim C2 as stated: the orchestrator's
`attempt_recovery('trading_halt')` returns `True` and decrements the
level (here 1 to 0), because `_recover_from_trading_halt` in
`recovery_manager.py` returns `True`. -/
theorem c2_counterexample :
    (attempt_recovery "trading_halt" (runRM [RMOp.degrade 1])).1 = true ∧
    (attempt_recovery "trading_halt"
      (runRM [RMOp.degrade 1])).2.degradation_level = 0 ∧
    (runRM [RMOp.degrade 1]).degradation_level = 1 :=
  ⟨rfl, by decide, by decide⟩

/-- Claim C2 (amended): the `ErrorHandler`'s Trading and System recovery
strategies do report failure by policy, but the `RecoveryManager`'s
`trading_halt` and `system_overload` strategies report success: its
`attempt_recovery` returns `True` for them and decrements the level by 1
with floor 0. -/
theorem c2_trading_system_strategies :
    recover_from_trading_error = false ∧
    recover_from_system_error = false ∧
    eh_attempt_recovery ErrorType.trading_error = false ∧
    eh_attempt_recovery ErrorType.system_error = false ∧
    (∀ s : RMState,
      (attempt_recovery "trading_halt" s).1 = true ∧
      (attempt_recovery "trading_halt" s).2.degradation_level =
        max 0 (s.degradation_level - 1) ∧
      (attempt_recovery "system_overload" s).1 = true ∧
      (attempt_recovery "system_overload" s).2.degradation_level =
        max 0 (s.degradation_level - 1)) := by
  refine ⟨rfl, rfl, rfl, rfl, fun s => ?_⟩
  rw [attempt_recovery_success "trading_halt" s rfl,
    attempt_recovery_success "system_overload" s rfl]
  exact ⟨rfl, rfl, rfl, rfl⟩

/-- Counterexample to claim C3 as stated: on the fifth High-severity API
error within the hour (default threshold 5) the circuit breaker activates
and `handle_error` returns `False` without invoking the alert callback —
a High-severity event with no alert.  The four prior calls each alerted. -/
theorem c3_counterexample :
    (handle_error "boom" ErrorType.api_error ErrorSeverity.high [] "" 4
        defaultThreshold 900 (runEH fourHighApiEvents)).2.alerts =
      (runEH fourHighApiEvents).alerts ∧
    (handle_error "boom" ErrorType.api_error ErrorSeverity.high [] "" 4
        defaultThreshold 900 (runEH fourHighApiEvents)).1 = false ∧
    (runEH fourHighApiEvents).alerts.length = 4 :=
  ⟨rfl, rfl, rfl⟩

/-- Claim C3 (amended): for a `handle_error` call with severity High or
Critical, if the circuit breaker does not activate during the call, the
alert callback is invoked with the full event record regardless of
whether recovery succeeds (the call returns the strategy's outcome);
if the breaker does activate, the call returns `False` and the alert
callback is not invoked. -/
theorem c3_alerts (msg : String) (et : ErrorType) (sev : ErrorSeverity)
    (ctx : List (String × String)) (tb : String) (now : Int)
    (thr : ErrorType → Nat) (dur : Int) (s : EHState)
    (hsev : sev = ErrorSeverity.high ∨ sev = ErrorSeverity.critical) :
    (should_circuit_break thr et (update_error_tracking et now
        ⟨msg, et, sev, now, ctx, tb⟩ s) = false →
      (handle_error msg et sev ctx tb now thr dur s).2.alerts =
        s.alerts ++ [⟨msg, et, sev, now, ctx, tb⟩] ∧
      (handle_error msg et sev ctx tb now thr dur s).1 =
        eh_attempt_recovery et) ∧
    (should_circuit_break thr et (update_error_tracking et now
        ⟨msg, et, sev, now, ctx, tb⟩ s) = true →
      (handle_error msg et sev ctx tb now thr dur s).1 = false ∧
      (handle_error msg et sev ctx tb now thr dur s).2.alerts =
        s.alerts) := by
  constructor
  · intro hnb
    rw [handle_error]
    rw [if_neg (by rw [hnb]; simp)]
    rw [if_pos hsev]
    exact ⟨rfl, rfl⟩
  · intro hb
    rw [handle_error]
    rw [if_pos (by rw [hb])]
    exact ⟨rfl, rfl⟩

/-- Witness for the amended C3: the first High-severity API error on a
fresh handler alerts and returns the API strategy's outcome. -/
theorem c3_witness :
    (handle_error "down" ErrorType.api_error ErrorSeverity.high [] "" 0
        defaultThreshold 900 ehInitial).2.alerts =
      ehInitial.alerts ++
        [⟨"down", ErrorType.api_error, ErrorSeverity.high, 0, [], ""⟩] ∧
    (handle_error "down" ErrorType.api_error ErrorSeverity.high [] "" 0
        defaultThreshold 900 ehInitial).1 =
      eh_attempt_recovery ErrorType.api_error :=
  (c3_alerts "down" ErrorType.api_error ErrorSeverity.high [] "" 0
    defaultThreshold 900 ehInitial (Or.inl rfl)).1 rfl

/-- Counterexample to claim C4 as stated: with an in-memory snapshot
present, each `emergency_shutdown` call persists it again — two
consecutive calls produce two snapshot-persist side effects, not one. -/
theorem c4_counterexample :
    (emergency_shutdown rmWithSnapshot).persist_log.length = 1 ∧
    (emergency_shutdown
      (emergency_shutdown rmWithSnapshot)).persist_log.length = 2 :=
  ⟨rfl, rfl⟩

/-- Claim C4 (amended): `emergency_shutdown` sets `EMERGENCY`
unconditionally and persists the last known snapshot whenever one exists
(none is persisted when there is no snapshot); it is idempotent on the
recovery state but not on side effects: a second consecutive invocation
persists the same snapshot document again, so two calls produce two
persist side effects. -/
theorem c4_shutdown_effects :
    (∀ s : RMState,
      (emergency_shutdown s).recovery_state = RecoveryState.emergency) ∧
    (∀ (s : RMState) (snap : SystemSnapshot), s.last_snapshot = some snap →
      (emergency_shutdown s).persist_log =
        s.persist_log ++ [persist_snapshot snap] ∧
      (emergency_shutdown (emergency_shutdown s)).persist_log =
        s.persist_log ++ [persist_snapshot snap, persist_snapshot snap]) ∧
    (∀ s : RMState, s.last_snapshot = none →
      (emergency_shutdown s).persist_log = s.persist_log) := by
  refine ⟨fun s => ?_, fun s snap hsnap => ?_, fun s hnone => ?_⟩
  · cases hsnap : s.last_snapshot with
    | none => simp [emergency_shutdown, hsnap]
    | some snap => simp [emergency_shutdown, hsnap]
  · constructor
    · simp [emergency_shutdown, hsnap]
    · simp [emergency_shutdown, hsnap]
  · simp [emergency_shutdown, hnone]

/-- Witness for the amended C4 on a state holding a snapshot. -/
theorem c4_witness :
    (emergency_shutdown rmWithSnapshot).persist_log =
      rmWithSnapshot.persist_log ++ [persist_snapshot sampleSnapshot] ∧
    (emergency_shutdown (emergency_shutdown rmWithSnapshot)).persist_log =
      rmWithSnapshot.persist_log ++
        [persist_snapshot sampleSnapshot, persist_snapshot sampleSnapshot] :=
  c4_shutdown_effects.2.1 rmWithSnapshot sampleSnapshot rfl

/-- Claim C9 (confirmed): persisting a snapshot whose timestamp is a
constructible datetime and whose payload fields are natively
JSON-representable, into a directory whose existing files all have
strictly earlier creation times, and then loading the latest snapshot,
yields a `SystemSnapshot` structurally equal to the original, field for
field. -/
theorem c9_snapshot_roundtrip (s : SystemSnapshot)
    (files : List (Nat × SnapshotFile)) (c : Nat)
    (ht : validRange s.timestamp)
    (hp : jsonableV s.positions = true)
    (ho : jsonableV s.active_orders = true)
    (hm : jsonableV s.model_state = true)
    (hc : jsonableV s.configuration = true)
    (hfresh : ∀ p ∈ files, p.1 < c) :
    load_latest_snapshot (files ++ [(c, persist_snapshot s)]) = some s := by
  have hread := read_persist s ht hp ho hm hc
  cases files with
  | nil =>
    rw [List.nil_append, load_latest_snapshot, maxByCtime]
    exact hread
  | cons f rest =>
    rw [List.cons_append, load_latest_snapshot,
      maxByCtime_last f rest (c, persist_snapshot s)
        (hfresh f (List.mem_cons_self _ _))
        (fun q hq => hfresh q (List.mem_cons_of_mem _ hq))]
    exact hread

/-- Witness for C9: the scenario-5 snapshot round-trips through an
otherwise empty snapshot directory. -/
theorem c9_witness :
    load_latest_snapshot ([] ++ [(0, persist_snapshot sampleSnapshot)]) =
      some sampleSnapshot :=
  c9_snapshot_roundtrip sampleSnapshot [] 0
    (by unfold validRange; decide) rfl rfl rfl rfl (by simp)
